import Mathlib

set_option maxRecDepth 16000

/-!
Shallow embedding of `src/chess.py` (Cand1d/chessdb): a script that fetches a
player's bullet games from chess.com for the current and previous month,
aggregates per-day games/wins/win-rate/overuse-flag, and renders an HTML
dashboard (chart + table).

JSON game objects are embedded as structures with `Option` fields: a missing
field makes the corresponding dictionary access raise in Python, which the
bare `except: continue` in `extract_daily_stats` turns into skipping the game;
here that is `Option` propagation to `none`.  UTC calendar dates are embedded
as epoch-day numbers (`end_time / 86400`).  Pandas' float `.round(1)` is
embedded as exact rational rounding to tenths with ties to even.
-/

/-- Participant object of one color inside a game JSON object
(`g["white"]` / `g["black"]`): carries a username and a result code. -/
structure Participant where
  username : Option String
  result : Option String
deriving Repr, DecidableEq

/-- A game JSON object as used by the script: end-of-game UNIX timestamp,
two participant objects, and the time-control class string. -/
structure Game where
  end_time : Option Nat
  white : Option Participant
  black : Option Participant
  time_class : Option String
deriving Repr, DecidableEq

/-- Python `str.lower()`, embedded per character (usernames are ASCII; this
agrees with `String.toLower`, which maps `Char.toLower` over the string). -/
def pyLower (s : String) : String := String.mk (s.data.map Char.toLower)

/-- Module-level config: `username = "cand5d".lower()`. -/
def username : String := pyLower "cand5d"

/-- `datetime.utcfromtimestamp(g["end_time"]).date()`: the UTC calendar date,
embedded as the epoch-day number.  `none` when `end_time` is missing. -/
def dateOf (g : Game) : Option Nat :=
  g.end_time.map (fun t => t / 86400)

/-- `color = "white" if g["white"]["username"].lower() == username else "black";
result = g[color]["result"]`: the perspective player's result code.  Any
missing dictionary key on the path makes this `none` (a raised `KeyError`
in Python). -/
def sideResult (user : String) (g : Game) : Option String := do
  let w ← g.white
  let wu ← w.username
  if pyLower wu = user then
    w.result
  else do
    let b ← g.black
    b.result

/-- The body of the `try:` block of `extract_daily_stats` for one game:
the game's UTC date and whether it is a win (`result == "win"`).
`none` exactly when Python would raise and the game would be skipped. -/
def processGame (user : String) (g : Game) : Option (Nat × Bool) := do
  let d ← dateOf g
  let r ← sideResult user g
  pure (d, r == "win")

/-- A value of the `daily` dict: games played and games won on one date. -/
structure Counts where
  games : Nat
  wins : Nat
deriving Repr, DecidableEq

/-- `daily[date]["games"] += 1; daily[date]["wins"] += win`. -/
def bump (c : Counts) (win : Bool) : Counts :=
  { games := c.games + 1, wins := c.wins + (if win then 1 else 0) }

/-- `daily.setdefault(date, {"games": 0, "wins": 0})` followed by the two
increments, on the insertion-ordered association list embedding the dict. -/
def updateDaily (m : List (Nat × Counts)) (d : Nat) (win : Bool) :
    List (Nat × Counts) :=
  match m with
  | [] => [(d, bump ⟨0, 0⟩ win)]
  | (dk, c) :: rest =>
    if dk = d then (dk, bump c win) :: rest
    else (dk, c) :: updateDaily rest d win

/-- One iteration of the `for g in games` loop: a malformed game
(`processGame = none`) leaves `daily` unchanged (`except: continue`). -/
def stepDaily (user : String) (m : List (Nat × Counts)) (g : Game) :
    List (Nat × Counts) :=
  match processGame user g with
  | none => m
  | some (d, win) => updateDaily m d win

/-- The whole loop of `extract_daily_stats`: the `daily` dict after all games. -/
def dailyOf (user : String) (games : List Game) : List (Nat × Counts) :=
  games.foldl (stepDaily user) []

/-- `daily.get(d, {"games": 0, "wins": 0})`: the counts stored for date `d`
(zero counts when the date has no entry yet). -/
def lookupCounts (m : List (Nat × Counts)) (d : Nat) : Counts :=
  match m with
  | [] => ⟨0, 0⟩
  | (dk, c) :: rest => if dk = d then c else lookupCounts rest d

/-- Insert one dated entry into a list sorted ascending by date. -/
def insertByDate (p : Nat × Counts) : List (Nat × Counts) → List (Nat × Counts)
  | [] => [p]
  | q :: rest => if p.1 ≤ q.1 then p :: q :: rest else q :: insertByDate p rest

/-- `sorted(daily.items())`: the dict's entries sorted ascending by date
(dates are distinct keys, so comparison never reaches the values). -/
def sortByDate (l : List (Nat × Counts)) : List (Nat × Counts) :=
  l.foldr insertByDate []

/-- Round a rational to the nearest integer, ties to even — the rounding
used by pandas/numpy `.round`. -/
def roundHalfEven (q : ℚ) : ℤ :=
  let n := ⌊q⌋
  let r := q - n
  if r < 1/2 then n
  else if 1/2 < r then n + 1
  else if n % 2 = 0 then n else n + 1

/-- `.round(1)`: round to one decimal place, ties to even. -/
def round1 (q : ℚ) : ℚ := (roundHalfEven (10 * q) : ℚ) / 10

/-- One row of the DataFrame built by `extract_daily_stats`:
Date, Games, Wins, `Win Rate (%)` (as an exact rational), Flag. -/
structure Row where
  Date : Nat
  Games : Nat
  Wins : Nat
  win_rate : ℚ
  Flag : String
deriving Repr, DecidableEq

/-- Build one row:
`Win Rate (%) = (Wins / Games * 100).round(1)` and
`Flag = "⚠️ Overuse" if Games > 6 else "✅ OK"`. -/
def mkRow (d : Nat) (c : Counts) : Row :=
  { Date := d
    Games := c.games
    Wins := c.wins
    win_rate := round1 ((c.wins : ℚ) / (c.games : ℚ) * 100)
    Flag := if c.games > 6 then "⚠️ Overuse" else "✅ OK" }

/-- `extract_daily_stats(games)`: aggregate games into the per-day DataFrame,
sorted ascending by date.  (On the empty frame the win-rate and flag columns
are not added in Python; mapping over the empty list coincides.) -/
def extract_daily_stats (user : String) (games : List Game) : List Row :=
  (sortByDate (dailyOf user games)).map (fun p => mkRow p.1 p.2)

/-- Zero-padded month, `f"{month:02d}"`. -/
def pad2 (m : Nat) : String :=
  if m < 10 then "0" ++ toString m else toString m

/-- The outcome of the HTTP request + parse in `fetch_bullet_games`:
`.error e` for any transport failure, non-success status (`raise_for_status`)
or unparseable body; `.ok body` for a parsed JSON body, where `body` is the
value of its `"games"` key (`none` when the key is absent, `.get` default). -/
abbrev FetchResponse := Except String (Option (List Game))

/-- `fetch_bullet_games(username, year, month)` given the response outcome:
returns the games filtered to `time_class == "bullet"` plus the printed log
lines.  Any error is caught: it logs
`f"Failed to load {year}-{month:02d}: {e}"` and returns `[]`. -/
def fetch_bullet_games (year month : Nat) (resp : FetchResponse) :
    List Game × List String :=
  match resp with
  | .error e =>
    ([], ["Failed to load " ++ toString year ++ "-" ++ pad2 month ++ ": " ++ e])
  | .ok body =>
    ((body.getD []).filter (fun g => g.time_class == some "bullet"), [])

/-- `games_combined = fetch_bullet_games(username, *last_month) +
fetch_bullet_games(username, *this_month)`. -/
def games_combined (y1 m1 y2 m2 : Nat) (r1 r2 : FetchResponse) : List Game :=
  (fetch_bullet_games y1 m1 r1).1 ++ (fetch_bullet_games y2 m2 r2).1

/-- `this_month = (today.year, today.month)`. -/
def this_month (today : Int × Int) : Int × Int := today

/-- `last_month = (today.year - 1, 12) if today.month == 1
else (today.year, today.month - 1)`. -/
def last_month (today : Int × Int) : Int × Int :=
  if today.2 = 1 then (today.1 - 1, 12) else (today.1, today.2 - 1)

/-- Linear month index `12*year + month`, to state that `last_month` is the
immediate calendar predecessor. -/
def monthIdx (p : Int × Int) : Int := 12 * p.1 + p.2

/-- The figure built by the plotting section: its layout title, the bar
series (`x=df["Date"]`, `y=df["Games"]`) and the line series
(`y=df["Win Rate (%)"]`). -/
structure Fig where
  title : String
  barDates : List Nat
  barValues : List Nat
  lineValues : List ℚ
deriving Repr, DecidableEq

/-- `if not df.empty: fig = go.Figure(data=[go.Bar(x=df["Date"], ...)])`
with `title="Bullet Games and Win Rate per Day"`, else an empty figure with
`title="No Bullet Games Found"`. -/
def mkFig (rows : List Row) : Fig :=
  if rows.isEmpty then
    { title := "No Bullet Games Found"
      barDates := [], barValues := [], lineValues := [] }
  else
    { title := "Bullet Games and Win Rate per Day"
      barDates := rows.map Row.Date
      barValues := rows.map Row.Games
      lineValues := rows.map Row.win_rate }

/-- Insert one row into a list sorted descending by date. -/
def insertRowDesc (r : Row) : List Row → List Row
  | [] => [r]
  | q :: rest => if r.Date ≥ q.Date then r :: q :: rest else q :: insertRowDesc r rest

/-- `df.sort_values('Date', ascending=False)`: rows sorted descending by
date (dates are unique, so the sort's stability is immaterial). -/
def df_table (rows : List Row) : List Row :=
  rows.foldr insertRowDesc []

/-- One `<tr>` of `df_table.to_html(index=False)`. -/
def rowHtml (r : Row) : String :=
  "<tr><td>" ++ toString r.Date ++ "</td><td>" ++ toString r.Games ++
    "</td><td>" ++ toString r.Wins ++ "</td><td>" ++ toString r.win_rate.num ++
    "/" ++ toString r.win_rate.den ++ "</td><td>" ++ r.Flag ++ "</td></tr>"

/-- `table_html`: `df_table.to_html(index=False)` when there are rows,
`'<p>No data available.</p>'` when `df.empty`. -/
def table_html (rows : List Row) : String :=
  if rows.isEmpty then "<p>No data available.</p>"
  else
    "<table><tr><th>Date</th><th>Games</th><th>Wins</th>" ++
      "<th>Win Rate (%)</th><th>Flag</th></tr>" ++
      String.join ((df_table rows).map rowHtml) ++ "</table>"

/-- `pio.to_html(fig, full_html=False, include_plotlyjs='cdn')`: the chart
markup; the figure's layout title appears in it. -/
def chartHtml (fig : Fig) : String :=
  "<div class=\"plotly-graph-div\" data-title=\"" ++ fig.title ++ "\"></div>"

/-- The `html_content` f-string: full document embedding the chart markup and
`table_html`. -/
def html_content (rows : List Row) : String :=
  "<!DOCTYPE html>\n<html>\n<head>\n    <title>Bullet Chess Dashboard</title>\n</head>\n<body>\n    <h1>Bullet Chess Dashboard – Last 2 Months</h1>\n    " ++
    chartHtml (mkFig rows) ++
    "\n    <h3>Daily Summary Table</h3>\n    " ++
    table_html rows ++
    "\n</body>\n</html>\n"

/-- `t` occurs as a substring of `s`. -/
def hasSubstr (s t : String) : Prop := ∃ a b, s = a ++ t ++ b

/-! ### Concrete sample data (used by witnesses and examples) -/

/-- A fully-formed game JSON object. -/
def mkGame (t : Nat) (wu wr bu br : String) : Game :=
  { end_time := some t
    white := some { username := some wu, result := some wr }
    black := some { username := some bu, result := some br }
    time_class := some "bullet" }

/-- Epoch-day 19723 is 2024-01-01; multiply by 86400 for a timestamp. -/
def sampleDay : Nat := 19723

/-- Seven games by "Cand5D" (as white, mixed case) on one day, three of them
wins: a 7-game, 3-win day. -/
def gamesSeven : List Game :=
  [ mkGame (sampleDay * 86400 + 100) "Cand5D" "win" "opp" "checkmated"
  , mkGame (sampleDay * 86400 + 200) "Cand5D" "checkmated" "opp" "win"
  , mkGame (sampleDay * 86400 + 300) "Cand5D" "win" "opp" "resigned"
  , mkGame (sampleDay * 86400 + 400) "Cand5D" "timeout" "opp" "win"
  , mkGame (sampleDay * 86400 + 500) "Cand5D" "win" "opp" "timeout"
  , mkGame (sampleDay * 86400 + 600) "Cand5D" "agreed" "opp" "agreed"
  , mkGame (sampleDay * 86400 + 700) "Cand5D" "resigned" "opp" "win" ]

/-- Six games by "cand5d" (as black) on the following day, all losses. -/
def gamesSix : List Game :=
  [ mkGame ((sampleDay + 1) * 86400 + 100) "opp" "win" "cand5d" "checkmated"
  , mkGame ((sampleDay + 1) * 86400 + 200) "opp" "win" "cand5d" "timeout"
  , mkGame ((sampleDay + 1) * 86400 + 300) "opp" "win" "cand5d" "resigned"
  , mkGame ((sampleDay + 1) * 86400 + 400) "opp" "win" "cand5d" "checkmated"
  , mkGame ((sampleDay + 1) * 86400 + 500) "opp" "win" "cand5d" "resigned"
  , mkGame ((sampleDay + 1) * 86400 + 600) "opp" "win" "cand5d" "timeout" ]

/-- Thirteen games over two days: a 7-game day and a 6-game day. -/
def gamesThirteen : List Game := gamesSeven ++ gamesSix

/-- One game each on 2024-01-01, 2024-01-03, 2024-01-02 (in that input
order): epoch-days 19723, 19725, 19724. -/
def gamesThreeDates : List Game :=
  [ mkGame (19723 * 86400 + 50) "cand5d" "win" "opp" "resigned"
  , mkGame (19725 * 86400 + 50) "cand5d" "checkmated" "opp" "win"
  , mkGame (19724 * 86400 + 50) "cand5d" "win" "opp" "timeout" ]

/-- A malformed game: the perspective side's result field is missing, so
`g[color]["result"]` raises and the game is skipped. -/
def gameBad : Game :=
  { end_time := some (sampleDay * 86400 + 999)
    white := some { username := some "cand5d", result := none }
    black := some { username := some "opp", result := some "win" }
    time_class := some "bullet" }

/-- A game in which the perspective player appears on neither side. -/
def gameNeither : Game :=
  mkGame (sampleDay * 86400 + 321) "alice" "checkmated" "bob" "win"

/-! ### Helper lemmas about the daily dict -/

/-- Value invariant of the daily dict: `wins ≤ games` and at least one game. -/
def countsOk (c : Counts) : Prop := c.wins ≤ c.games ∧ 1 ≤ c.games

lemma countsOk_bump (c : Counts) (w : Bool) (h : c.wins ≤ c.games) :
    countsOk (bump c w) := by
  constructor
  · simp only [bump]
    cases w <;> simp <;> omega
  · simp [bump]

lemma countsOk_updateDaily (m : List (Nat × Counts)) (d : Nat) (w : Bool)
    (hm : ∀ p ∈ m, countsOk p.2) : ∀ p ∈ updateDaily m d w, countsOk p.2 := by
  induction m with
  | nil =>
    intro p hp
    simp only [updateDaily, List.mem_singleton] at hp
    subst hp
    exact countsOk_bump ⟨0, 0⟩ w (le_refl 0)
  | cons q rest ih =>
    obtain ⟨dk, c⟩ := q
    intro p hp
    simp only [updateDaily] at hp
    by_cases hd : dk = d
    · simp only [if_pos hd, List.mem_cons] at hp
      rcases hp with h | h
      · subst h
        exact countsOk_bump c w (hm (dk, c) (List.mem_cons_self _ _)).1
      · exact hm p (List.mem_cons_of_mem _ h)
    · simp only [if_neg hd, List.mem_cons] at hp
      rcases hp with h | h
      · subst h
        exact hm (dk, c) (List.mem_cons_self _ _)
      · exact ih (fun q hq => hm q (List.mem_cons_of_mem _ hq)) p h

lemma countsOk_foldl (user : String) (gs : List Game) (m : List (Nat × Counts))
    (hm : ∀ p ∈ m, countsOk p.2) :
    ∀ p ∈ gs.foldl (stepDaily user) m, countsOk p.2 := by
  induction gs generalizing m with
  | nil => simpa using hm
  | cons g gs ih =>
    intro p hp
    simp only [List.foldl_cons] at hp
    refine ih (stepDaily user m g) ?_ p hp
    intro q hq
    simp only [stepDaily] at hq
    cases hpg : processGame user g with
    | none => exact hm q (by rwa [hpg] at hq)
    | some dw =>
      rw [hpg] at hq
      exact countsOk_updateDaily m dw.1 dw.2 hm q hq

lemma mem_insertByDate (p q : Nat × Counts) (l : List (Nat × Counts)) :
    p ∈ insertByDate q l ↔ p = q ∨ p ∈ l := by
  induction l with
  | nil => simp [insertByDate]
  | cons x xs ih =>
    simp only [insertByDate]
    by_cases h : q.1 ≤ x.1
    · simp [if_pos h]
    · simp only [if_neg h, List.mem_cons, ih]
      tauto

lemma mem_sortByDate (p : Nat × Counts) (l : List (Nat × Counts)) :
    p ∈ sortByDate l ↔ p ∈ l := by
  induction l with
  | nil => simp [sortByDate]
  | cons x xs ih =>
    simp only [sortByDate, List.foldr_cons] at ih ⊢
    rw [mem_insertByDate, ih, List.mem_cons]

lemma row_of_mem_extract (user : String) (gs : List Game) (r : Row)
    (hr : r ∈ extract_daily_stats user gs) :
    ∃ p, p ∈ dailyOf user gs ∧ r = mkRow p.1 p.2 ∧ countsOk p.2 := by
  simp only [extract_daily_stats, List.mem_map] at hr
  obtain ⟨p, hp, hpr⟩ := hr
  rw [mem_sortByDate] at hp
  exact ⟨p, hp, hpr.symm,
    countsOk_foldl user gs [] (by simp) p hp⟩

/-! ### C1 -/

/-- C1: every row produced by `extract_daily_stats` satisfies
`0 ≤ Wins ≤ Games` and `1 ≤ Games` — rows exist only for dates on which at
least one game was aggregated. -/
theorem extract_daily_stats_row_invariant (user : String) (gs : List Game)
    (r : Row) (hr : r ∈ extract_daily_stats user gs) :
    0 ≤ r.Wins ∧ r.Wins ≤ r.Games ∧ 1 ≤ r.Games := by
  obtain ⟨p, _, hrp, hok⟩ := row_of_mem_extract user gs r hr
  subst hrp
  exact ⟨Nat.zero_le _, hok.1, hok.2⟩

/-- C1 witness: a concrete 7-game, 3-win day. -/
theorem extract_daily_stats_row_invariant_witness :
    mkRow 19723 ⟨7, 3⟩ ∈ extract_daily_stats username gamesSeven ∧
    (0 ≤ (mkRow 19723 ⟨7, 3⟩).Wins ∧ (mkRow 19723 ⟨7, 3⟩).Wins ≤ (mkRow 19723 ⟨7, 3⟩).Games ∧
      1 ≤ (mkRow 19723 ⟨7, 3⟩).Games) := by
  have hev : extract_daily_stats username gamesSeven = [mkRow 19723 ⟨7, 3⟩] := by
    with_unfolding_all rfl
  have hmem : mkRow 19723 ⟨7, 3⟩ ∈ extract_daily_stats username gamesSeven := by
    rw [hev]; exact List.mem_singleton_self _
  exact ⟨hmem, extract_daily_stats_row_invariant username gamesSeven _ hmem⟩

/-! ### C2 -/

/-- C2: every row's win-rate field equals `round(100 × wins / games, 1)`
(one decimal place, ties to even, as pandas `.round(1)` rounds). -/
theorem extract_daily_stats_win_rate_spec (user : String) (gs : List Game)
    (r : Row) (hr : r ∈ extract_daily_stats user gs) :
    r.win_rate = round1 (100 * (r.Wins : ℚ) / (r.Games : ℚ)) := by
  obtain ⟨p, _, hrp, _⟩ := row_of_mem_extract user gs r hr
  subst hrp
  simp only [mkRow]
  congr 1
  ring

/-- C2 witness: the concrete 7-game, 3-win day has win rate
`round(100*3/7, 1) = 42.9`. -/
theorem extract_daily_stats_win_rate_spec_witness :
    mkRow 19723 ⟨7, 3⟩ ∈ extract_daily_stats username gamesSeven ∧
    (mkRow 19723 ⟨7, 3⟩).win_rate =
      round1 (100 * ((mkRow 19723 ⟨7, 3⟩).Wins : ℚ) / ((mkRow 19723 ⟨7, 3⟩).Games : ℚ)) ∧
    (mkRow 19723 ⟨7, 3⟩).Games = 7 ∧ (mkRow 19723 ⟨7, 3⟩).Wins = 3 ∧
    (mkRow 19723 ⟨7, 3⟩).win_rate = 429 / 10 := by
  have hev : extract_daily_stats username gamesSeven = [mkRow 19723 ⟨7, 3⟩] := by
    with_unfolding_all rfl
  have hmem : mkRow 19723 ⟨7, 3⟩ ∈ extract_daily_stats username gamesSeven := by
    rw [hev]; exact List.mem_singleton_self _
  refine ⟨hmem, extract_daily_stats_win_rate_spec username gamesSeven _ hmem, rfl, rfl, ?_⟩
  with_unfolding_all rfl

/-! ### C3 -/

/-- C3: the side of the perspective player is determined by case-insensitive
username comparison (the white participant's username is lowercased and
compared to the lowercased configured name), and any game whose per-game
extraction raises (`processGame = none`) is skipped without failing the
whole aggregation. -/
theorem side_lookup_case_insensitive_and_malformed_skipped :
    (∀ user g w un, g.white = some w → w.username = some un →
        pyLower un = user → sideResult user g = w.result) ∧
    (∀ user gs1 g gs2, processGame user g = none →
        extract_daily_stats user (gs1 ++ g :: gs2) =
          extract_daily_stats user (gs1 ++ gs2)) := by
  constructor
  · intro user g w un hw hun hlow
    simp [sideResult, hw, hun, hlow]
  · intro user gs1 g gs2 h
    have hstep : ∀ m, stepDaily user m g = m := by
      intro m
      simp [stepDaily, h]
    simp [extract_daily_stats, dailyOf, List.foldl_append, List.foldl_cons, hstep]

/-- C3 witness: a game whose white username is "Cand5D" is attributed to
configured user "cand5d", and a concrete malformed game (missing result) is
dropped from the aggregation of a larger list. -/
theorem side_lookup_case_insensitive_and_malformed_skipped_witness :
    ((mkGame (sampleDay * 86400 + 100) "Cand5D" "win" "opp" "checkmated").white =
        some { username := some "Cand5D", result := some "win" } ∧
     pyLower "Cand5D" = username ∧
     sideResult username (mkGame (sampleDay * 86400 + 100) "Cand5D" "win" "opp" "checkmated") =
       (Participant.mk (some "Cand5D") (some "win")).result) ∧
    (processGame username gameBad = none ∧
     extract_daily_stats username ([] ++ gameBad :: gamesSeven) =
       extract_daily_stats username ([] ++ gamesSeven)) :=
  ⟨⟨by decide, by decide,
    side_lookup_case_insensitive_and_malformed_skipped.1 username
      (mkGame (sampleDay * 86400 + 100) "Cand5D" "win" "opp" "checkmated")
      (Participant.mk (some "Cand5D") (some "win")) "Cand5D"
      (by decide) (by decide) (by decide)⟩,
   ⟨by decide,
    side_lookup_case_insensitive_and_malformed_skipped.2 username [] gameBad gamesSeven
      (by decide)⟩⟩

/-! ### C4 -/

lemma lookupCounts_updateDaily (m : List (Nat × Counts)) (d : Nat) (w : Bool) :
    lookupCounts (updateDaily m d w) d = bump (lookupCounts m d) w := by
  induction m with
  | nil => simp [updateDaily, lookupCounts]
  | cons q rest ih =>
    obtain ⟨dk, c⟩ := q
    by_cases h : dk = d
    · subst h
      simp [updateDaily, lookupCounts]
    · simp [updateDaily, lookupCounts, h, ih]

/-- C4: a game is a win iff the perspective player's result is the literal
string "win"; processing a game whose result is anything else increments the
day's games count but leaves its wins count unchanged. -/
theorem win_iff_result_win (user : String) :
    (∀ g d r, dateOf g = some d → sideResult user g = some r →
        processGame user g = some (d, r == "win")) ∧
    (∀ m g d r, dateOf g = some d → sideResult user g = some r → r ≠ "win" →
        (lookupCounts (stepDaily user m g) d).games = (lookupCounts m d).games + 1 ∧
        (lookupCounts (stepDaily user m g) d).wins = (lookupCounts m d).wins) := by
  have hpg : ∀ g d r, dateOf g = some d → sideResult user g = some r →
      processGame user g = some (d, r == "win") := by
    intro g d r hd hr
    simp [processGame, hd, hr]
  refine ⟨hpg, ?_⟩
  intro m g d r hd hr hne
  have h1 : stepDaily user m g = updateDaily m d (r == "win") := by
    simp [stepDaily, hpg g d r hd hr]
  have h2 : (r == "win") = false := beq_eq_false_iff_ne.mpr hne
  rw [h1, h2, lookupCounts_updateDaily]
  simp [bump]

/-- C4 witness: a concrete game lost by checkmate ("checkmated" ≠ "win")
increments games but not wins. -/
theorem win_iff_result_win_witness :
    (dateOf (mkGame (sampleDay * 86400 + 200) "Cand5D" "checkmated" "opp" "win") =
        some 19723 ∧
     sideResult username (mkGame (sampleDay * 86400 + 200) "Cand5D" "checkmated" "opp" "win") =
        some "checkmated" ∧
     "checkmated" ≠ "win") ∧
    ((lookupCounts (stepDaily username []
        (mkGame (sampleDay * 86400 + 200) "Cand5D" "checkmated" "opp" "win")) 19723).games =
      (lookupCounts [] 19723).games + 1 ∧
     (lookupCounts (stepDaily username []
        (mkGame (sampleDay * 86400 + 200) "Cand5D" "checkmated" "opp" "win")) 19723).wins =
      (lookupCounts [] 19723).wins) :=
  ⟨⟨by decide, by decide, by decide⟩,
   (win_iff_result_win username).2 []
     (mkGame (sampleDay * 86400 + 200) "Cand5D" "checkmated" "opp" "win") 19723 "checkmated"
     (by decide) (by decide) (by decide)⟩

/-! ### C5 -/

/-- C5: a row's flag is the Overuse marking iff its games count exceeds 6,
and the OK marking iff it does not. -/
theorem overuse_flag_iff (user : String) (gs : List Game) (r : Row)
    (hr : r ∈ extract_daily_stats user gs) :
    (r.Flag = "⚠️ Overuse" ↔ 6 < r.Games) ∧ (r.Flag = "✅ OK" ↔ r.Games ≤ 6) := by
  obtain ⟨p, _, hrp, _⟩ := row_of_mem_extract user gs r hr
  subst hrp
  simp only [mkRow]
  by_cases h : 6 < p.2.games
  · rw [if_pos h]
    constructor
    · simpa using h
    · simp only [show ¬("⚠️ Overuse" = "✅ OK") by decide, false_iff]
      omega
  · rw [if_neg h]
    constructor
    · simp only [show ¬("✅ OK" = "⚠️ Overuse") by decide, false_iff]
      omega
    · simp only [true_iff]
      omega

/-- C5 witness: in a concrete aggregation, the 7-game day is flagged
"⚠️ Overuse" and the 6-game day "✅ OK". -/
theorem overuse_flag_iff_witness :
    (mkRow 19723 ⟨7, 3⟩ ∈ extract_daily_stats username gamesThirteen ∧
     mkRow 19724 ⟨6, 0⟩ ∈ extract_daily_stats username gamesThirteen) ∧
    ((mkRow 19723 ⟨7, 3⟩).Flag = "⚠️ Overuse" ↔ 6 < (mkRow 19723 ⟨7, 3⟩).Games) ∧
    ((mkRow 19724 ⟨6, 0⟩).Flag = "✅ OK" ↔ (mkRow 19724 ⟨6, 0⟩).Games ≤ 6) ∧
    ((mkRow 19723 ⟨7, 3⟩).Games = 7 ∧ (mkRow 19723 ⟨7, 3⟩).Flag = "⚠️ Overuse" ∧
     (mkRow 19724 ⟨6, 0⟩).Games = 6 ∧ (mkRow 19724 ⟨6, 0⟩).Flag = "✅ OK") := by
  have hev : extract_daily_stats username gamesThirteen =
      [mkRow 19723 ⟨7, 3⟩, mkRow 19724 ⟨6, 0⟩] := by
    with_unfolding_all rfl
  have hm1 : mkRow 19723 ⟨7, 3⟩ ∈ extract_daily_stats username gamesThirteen := by
    rw [hev]; exact List.mem_cons_self _ _
  have hm2 : mkRow 19724 ⟨6, 0⟩ ∈ extract_daily_stats username gamesThirteen := by
    rw [hev]; exact List.mem_cons_of_mem _ (List.mem_singleton_self _)
  refine ⟨⟨hm1, hm2⟩,
    (overuse_flag_iff username gamesThirteen _ hm1).1,
    (overuse_flag_iff username gamesThirteen _ hm2).2, rfl, rfl, rfl, rfl⟩

/-! ### C6: order of chart rows and table rows -/

lemma perm_insertByDate (p : Nat × Counts) (l : List (Nat × Counts)) :
    List.Perm (insertByDate p l) (p :: l) := by
  induction l with
  | nil => exact List.Perm.refl _
  | cons x xs ih =>
    simp only [insertByDate]
    by_cases h : p.1 ≤ x.1
    · rw [if_pos h]
    · rw [if_neg h]
      exact List.Perm.trans (ih.cons x) (List.Perm.swap p x xs)

lemma perm_sortByDate (l : List (Nat × Counts)) : List.Perm (sortByDate l) l := by
  induction l with
  | nil => exact List.Perm.refl _
  | cons x xs ih =>
    exact List.Perm.trans (perm_insertByDate x (sortByDate xs)) (ih.cons x)

lemma pairwise_le_insertByDate (p : Nat × Counts) (l : List (Nat × Counts))
    (h : List.Pairwise (fun a b : Nat × Counts => a.1 ≤ b.1) l) :
    List.Pairwise (fun a b : Nat × Counts => a.1 ≤ b.1) (insertByDate p l) := by
  induction l with
  | nil => simp [insertByDate]
  | cons x xs ih =>
    rw [List.pairwise_cons] at h
    simp only [insertByDate]
    by_cases hpx : p.1 ≤ x.1
    · rw [if_pos hpx]
      refine List.Pairwise.cons ?_ (List.Pairwise.cons h.1 h.2)
      intro b hb
      rcases List.mem_cons.mp hb with rfl | hbxs
      · exact hpx
      · exact le_trans hpx (h.1 b hbxs)
    · rw [if_neg hpx]
      refine List.Pairwise.cons ?_ (ih h.2)
      intro b hb
      rcases (mem_insertByDate b p xs).mp hb with rfl | hbxs
      · exact le_of_not_le hpx
      · exact h.1 b hbxs

lemma pairwise_le_sortByDate (l : List (Nat × Counts)) :
    List.Pairwise (fun a b : Nat × Counts => a.1 ≤ b.1) (sortByDate l) := by
  induction l with
  | nil => simp [sortByDate]
  | cons x xs ih => exact pairwise_le_insertByDate x (sortByDate xs) ih

lemma mem_keys_updateDaily (m : List (Nat × Counts)) (d w k) :
    k ∈ (updateDaily m d w).map Prod.fst ↔ k ∈ m.map Prod.fst ∨ k = d := by
  induction m with
  | nil => simp [updateDaily]
  | cons q rest ih =>
    obtain ⟨dk, c⟩ := q
    simp only [updateDaily]
    split
    next h =>
      subst h
      simp only [List.map_cons, List.mem_cons]
      tauto
    next h =>
      simp only [List.map_cons, List.mem_cons, ih]
      tauto

lemma nodup_keys_updateDaily (m : List (Nat × Counts)) (d : Nat) (w : Bool)
    (hm : (m.map Prod.fst).Nodup) : ((updateDaily m d w).map Prod.fst).Nodup := by
  induction m with
  | nil => simp [updateDaily]
  | cons q rest ih =>
    obtain ⟨dk, c⟩ := q
    simp only [List.map_cons, List.nodup_cons] at hm
    simp only [updateDaily]
    split
    next h =>
      subst h
      simpa [List.nodup_cons] using hm
    next h =>
      simp only [List.map_cons, List.nodup_cons, mem_keys_updateDaily]
      exact ⟨by tauto, ih hm.2⟩

lemma nodup_keys_foldl (user : String) (gs : List Game) (m : List (Nat × Counts))
    (hm : (m.map Prod.fst).Nodup) :
    (((gs.foldl (stepDaily user) m)).map Prod.fst).Nodup := by
  induction gs generalizing m with
  | nil => simpa using hm
  | cons g gs ih =>
    simp only [List.foldl_cons]
    refine ih (stepDaily user m g) ?_
    simp only [stepDaily]
    cases processGame user g with
    | none => exact hm
    | some dw => exact nodup_keys_updateDaily m dw.1 dw.2 hm

lemma nodup_keys_dailyOf (user : String) (gs : List Game) :
    ((dailyOf user gs).map Prod.fst).Nodup :=
  nodup_keys_foldl user gs [] (by simp)

lemma pairwise_lt_sortByDate (l : List (Nat × Counts))
    (hnd : (l.map Prod.fst).Nodup) :
    List.Pairwise (fun a b : Nat × Counts => a.1 < b.1) (sortByDate l) := by
  have hle := pairwise_le_sortByDate l
  have hperm : List.Perm ((sortByDate l).map Prod.fst) (l.map Prod.fst) :=
    (perm_sortByDate l).map Prod.fst
  have hnd2 : ((sortByDate l).map Prod.fst).Nodup := hperm.nodup_iff.mpr hnd
  have hne : List.Pairwise (fun a b : Nat × Counts => a.1 ≠ b.1) (sortByDate l) := by
    rw [List.Nodup, List.pairwise_map] at hnd2
    exact hnd2
  exact (hle.and hne).imp (fun h => lt_of_le_of_ne h.1 h.2)

lemma insertRowDesc_append (r : Row) (l : List Row)
    (h : ∀ q ∈ l, r.Date < q.Date) : insertRowDesc r l = l ++ [r] := by
  induction l with
  | nil => rfl
  | cons x xs ih =>
    have hx : r.Date < x.Date := h x (List.mem_cons_self _ _)
    simp only [insertRowDesc]
    rw [if_neg (by omega), ih (fun q hq => h q (List.mem_cons_of_mem _ hq))]
    rfl

lemma df_table_eq_reverse (rows : List Row)
    (h : List.Pairwise (fun a b : Row => a.Date < b.Date) rows) :
    df_table rows = rows.reverse := by
  induction rows with
  | nil => rfl
  | cons r rest ih =>
    rw [List.pairwise_cons] at h
    show insertRowDesc r (List.foldr insertRowDesc [] rest) = (r :: rest).reverse
    have : List.foldr insertRowDesc [] rest = df_table rest := rfl
    rw [this, ih h.2, insertRowDesc_append r rest.reverse
      (fun q hq => h.1 q (List.mem_reverse.mp hq)), List.reverse_cons]

/-- C6: the rows of `extract_daily_stats` (consumed in this order by the
chart's bar series) are sorted strictly ascending by date, and the table's
rows (`df.sort_values('Date', ascending=False)`) are exactly their reverse;
on input days 2024-01-01, 2024-01-03, 2024-01-02 (epoch-days 19723, 19725,
19724) the chart-facing order is 19723, 19724, 19725 and the table-facing
order is 19725, 19724, 19723. -/
theorem chart_ascending_table_descending :
    (∀ user gs,
        List.Pairwise (fun a b : Row => a.Date < b.Date) (extract_daily_stats user gs) ∧
        (mkFig (extract_daily_stats user gs)).barDates =
          (extract_daily_stats user gs).map Row.Date ∧
        df_table (extract_daily_stats user gs) = (extract_daily_stats user gs).reverse) ∧
    (extract_daily_stats username gamesThreeDates).map Row.Date =
      [19723, 19724, 19725] ∧
    (df_table (extract_daily_stats username gamesThreeDates)).map Row.Date =
      [19725, 19724, 19723] := by
  refine ⟨?_, ?_, ?_⟩
  · intro user gs
    have hlt := pairwise_lt_sortByDate (dailyOf user gs) (nodup_keys_dailyOf user gs)
    have hrows : List.Pairwise (fun a b : Row => a.Date < b.Date)
        (extract_daily_stats user gs) := by
      unfold extract_daily_stats
      exact List.pairwise_map.mpr hlt
    refine ⟨hrows, ?_, df_table_eq_reverse _ hrows⟩
    cases hrev : extract_daily_stats user gs with
    | nil => simp [mkFig]
    | cons r rs => simp [mkFig]
  · with_unfolding_all decide
  · with_unfolding_all decide

/-! ### C7 -/

/-- C7: any failed fetch (transport failure, bad status, or malformed body,
all surfacing as `Except.error`) logs a diagnostic naming the failing
year/month and returns the empty sequence; combining the two monthly fetches
when either one fails yields exactly the successful month's games (the
fetcher is a total function here: no exception propagates past it). -/
theorem fetch_failure_recovery :
    (∀ y m e, (fetch_bullet_games y m (Except.error e)).1 = [] ∧
        (fetch_bullet_games y m (Except.error e)).2 =
          ["Failed to load " ++ toString y ++ "-" ++ pad2 m ++ ": " ++ e]) ∧
    (∀ y1 m1 y2 m2 e r2, games_combined y1 m1 y2 m2 (Except.error e) r2 =
        (fetch_bullet_games y2 m2 r2).1) ∧
    (∀ y1 m1 y2 m2 r1 e, games_combined y1 m1 y2 m2 r1 (Except.error e) =
        (fetch_bullet_games y1 m1 r1).1) := by
  refine ⟨fun y m e => ⟨rfl, rfl⟩, fun y1 m1 y2 m2 e r2 => ?_,
    fun y1 m1 y2 m2 r1 e => ?_⟩
  · simp [games_combined, fetch_bullet_games]
  · simp [games_combined, fetch_bullet_games]

/-! ### C8 -/

/-- C8: aggregating an empty game list yields an empty row sequence, and the
zero-data document still renders, with the "No Bullet Games Found" chart
title and the "No data available." table placeholder both present in the
output document. -/
theorem empty_input_renders_no_data :
    (∀ user, extract_daily_stats user [] = []) ∧
    (mkFig []).title = "No Bullet Games Found" ∧
    table_html [] = "<p>No data available.</p>" ∧
    hasSubstr (html_content []) "No Bullet Games Found" ∧
    hasSubstr (html_content []) "<p>No data available.</p>" :=
  ⟨fun _ => rfl, rfl, rfl,
   ⟨"<!DOCTYPE html>\n<html>\n<head>\n    <title>Bullet Chess Dashboard</title>\n</head>\n<body>\n    <h1>Bullet Chess Dashboard – Last 2 Months</h1>\n    <div class=\"plotly-graph-div\" data-title=\"",
    "\"></div>\n    <h3>Daily Summary Table</h3>\n    <p>No data available.</p>\n</body>\n</html>\n",
    by decide⟩,
   ⟨"<!DOCTYPE html>\n<html>\n<head>\n    <title>Bullet Chess Dashboard</title>\n</head>\n<body>\n    <h1>Bullet Chess Dashboard – Last 2 Months</h1>\n    <div class=\"plotly-graph-div\" data-title=\"No Bullet Games Found\"></div>\n    <h3>Daily Summary Table</h3>\n    ",
    "\n</body>\n</html>\n",
    by decide⟩⟩

/-! ### C9 -/

/-- C9: for any current month `(y, m)` with `1 ≤ m ≤ 12`, `last_month` is
`(y-1, 12)` when `m = 1` and `(y, m-1)` otherwise; it is always the
immediate calendar predecessor and a valid month. -/
theorem last_month_year_rollover (y m : Int) (h1 : 1 ≤ m) (h2 : m ≤ 12) :
    last_month (y, m) = (if m = 1 then (y - 1, 12) else (y, m - 1)) ∧
    monthIdx (last_month (y, m)) + 1 = monthIdx (y, m) ∧
    1 ≤ (last_month (y, m)).2 ∧ (last_month (y, m)).2 ≤ 12 := by
  refine ⟨rfl, ?_⟩
  by_cases h : m = 1
  · subst h
    simp only [last_month, monthIdx, if_pos rfl]
    norm_num
    ring
  · simp only [last_month, monthIdx, if_neg h]
    norm_num
    omega

/-- C9 witness: current month (2025, 1) gives previous month (2024, 12),
not (2025, 0). -/
theorem last_month_year_rollover_witness :
    (1 : Int) ≤ 1 ∧ (1 : Int) ≤ 12 ∧
    (last_month (2025, 1) = (if (1 : Int) = 1 then ((2025 : Int) - 1, 12) else (2025, 1 - 1)) ∧
     monthIdx (last_month (2025, 1)) + 1 = monthIdx (2025, 1) ∧
     1 ≤ (last_month (2025, 1)).2 ∧ (last_month (2025, 1)).2 ≤ 12) ∧
    last_month (2025, 1) = (2024, 12) ∧ last_month (2025, 1) ≠ (2025, 0) :=
  ⟨by norm_num, by norm_num,
   last_month_year_rollover 2025 1 (by norm_num) (by norm_num),
   by decide, by decide⟩

/-! ### C10 -/

/-- C10 (implicit): when the white-side username (lowercased) differs from
the perspective username, the game is attributed to black without any check
of the black-side username; a game in which the perspective player appears
on neither side is therefore counted using the black participant's result. -/
theorem neither_side_counted_as_black (user : String) (g : Game)
    (w b : Participant) (un : String)
    (hw : g.white = some w) (hun : w.username = some un)
    (hne : pyLower un ≠ user) (hb : g.black = some b) :
    sideResult user g = b.result ∧
    (∀ t r, g.end_time = some t → b.result = some r →
        extract_daily_stats user [g] =
          [mkRow (t / 86400) ⟨1, if r == "win" then 1 else 0⟩]) := by
  have hside : sideResult user g = b.result := by
    simp [sideResult, hw, hun, hb, hne]
  refine ⟨hside, ?_⟩
  intro t r ht hr
  have hpr : processGame user g = some (t / 86400, r == "win") := by
    simp [processGame, dateOf, ht, hside, hr]
  simp [extract_daily_stats, dailyOf, stepDaily, hpr, updateDaily, sortByDate,
    List.foldr, insertByDate, bump]

/-- C10 witness: user "cand5d" plays in neither side of `gameNeither`
(white "alice", black "bob"), yet the game is attributed to black and
counted as a win because black's result is "win". -/
theorem neither_side_counted_as_black_witness :
    (gameNeither.white = some { username := some "alice", result := some "checkmated" } ∧
     pyLower "alice" ≠ username ∧
     gameNeither.black = some { username := some "bob", result := some "win" } ∧
     pyLower "bob" ≠ username) ∧
    sideResult username gameNeither =
      (Participant.mk (some "bob") (some "win")).result ∧
    extract_daily_stats username [gameNeither] =
      [mkRow ((sampleDay * 86400 + 321) / 86400) ⟨1, if "win" == "win" then 1 else 0⟩] := by
  have h := neither_side_counted_as_black username gameNeither
    (Participant.mk (some "alice") (some "checkmated"))
    (Participant.mk (some "bob") (some "win")) "alice"
    rfl rfl (by decide) rfl
  exact ⟨⟨rfl, by decide, rfl, by decide⟩, h.1,
    h.2 (sampleDay * 86400 + 321) "win" rfl rfl⟩
